import Mathlib

/-!
Shallow embedding of `src/eksi-scraper.py`, a single-file scraper for
paginated discussion threads.  The embedding models the parsed-document
shapes the code inspects (`bs4` queries are modelled as record fields that
are `none` when the corresponding `find` returns `None`), and translates
`get_soup`, `get_page_count`, `scrape_page` and the aggregation part of
`main` into total Lean functions.  Exceptions become `Except`; the retry
loop of `get_soup` carries an explicit trace of attempts and backoff
sleeps so that the retry contract can be stated.
-/

deriving instance DecidableEq for Except

namespace EksiScraper

/-- One `<li>` entry node inside the `entry-item-list` container, as far as
`scrape_page` inspects it: the `data-author` attribute, the text of the
`div.content` child (if present), the text of the `a.entry-date.permalink`
child (if present), and the `data-favorite-count` attribute. -/
structure EntryNode where
  dataAuthor : Option String
  contentDiv : Option String
  dateElement : Option String
  dataFavoriteCount : Option String
deriving Repr, DecidableEq

/-- The `div.pager` pagination container, as far as `get_page_count`
inspects it: the `data-pagecount` attribute and the texts of the `<a>`
links inside it. -/
structure Pager where
  dataPagecount : Option String
  linkTexts : List String
deriving Repr, DecidableEq

/-- A parsed page (`BeautifulSoup` document), restricted to the parts the
scraper queries: the optional `div.pager` and the optional
`ul#entry-item-list` with its `<li>` children. -/
structure Doc where
  pager : Option Pager
  entryItemList : Option (List EntryNode)
deriving Repr, DecidableEq

/-- The tuple `(username, content, date, favorite_count)` appended by
`scrape_page` for each successfully parsed entry. -/
structure Record where
  username : String
  content : String
  date : String
  favoriteCount : String
deriving Repr, DecidableEq

/-- Python truthiness of a string: non-empty. -/
def strTruthy (s : String) : Bool := s ≠ ""

/-- Maximal runs of Unicode decimal-digit code points (CPython 3.11 /
Unicode 14 data, generated from `unicodedata.decimal`): within a run
`(a, b)` the decimal value of code point `c` is `c - a`.  These are
exactly the characters Python `int()` accepts as digits. -/
def decimalRuns : List (Nat × Nat) := [
  (0x30, 0x39), (0x660, 0x669), (0x6f0, 0x6f9), (0x7c0, 0x7c9), (0x966, 0x96f),
  (0x9e6, 0x9ef), (0xa66, 0xa6f), (0xae6, 0xaef), (0xb66, 0xb6f), (0xbe6, 0xbef),
  (0xc66, 0xc6f), (0xce6, 0xcef), (0xd66, 0xd6f), (0xde6, 0xdef), (0xe50, 0xe59),
  (0xed0, 0xed9), (0xf20, 0xf29), (0x1040, 0x1049), (0x1090, 0x1099), (0x17e0, 0x17e9),
  (0x1810, 0x1819), (0x1946, 0x194f), (0x19d0, 0x19d9), (0x1a80, 0x1a89), (0x1a90, 0x1a99),
  (0x1b50, 0x1b59), (0x1bb0, 0x1bb9), (0x1c40, 0x1c49), (0x1c50, 0x1c59), (0xa620, 0xa629),
  (0xa8d0, 0xa8d9), (0xa900, 0xa909), (0xa9d0, 0xa9d9), (0xa9f0, 0xa9f9), (0xaa50, 0xaa59),
  (0xabf0, 0xabf9), (0xff10, 0xff19), (0x104a0, 0x104a9), (0x10d30, 0x10d39), (0x11066, 0x1106f),
  (0x110f0, 0x110f9), (0x11136, 0x1113f), (0x111d0, 0x111d9), (0x112f0, 0x112f9), (0x11450, 0x11459),
  (0x114d0, 0x114d9), (0x11650, 0x11659), (0x116c0, 0x116c9), (0x11730, 0x11739), (0x118e0, 0x118e9),
  (0x11950, 0x11959), (0x11c50, 0x11c59), (0x11d50, 0x11d59), (0x11da0, 0x11da9), (0x16a60, 0x16a69),
  (0x16ac0, 0x16ac9), (0x16b50, 0x16b59), (0x1d7ce, 0x1d7d7), (0x1d7d8, 0x1d7e1), (0x1d7e2, 0x1d7eb),
  (0x1d7ec, 0x1d7f5), (0x1d7f6, 0x1d7ff), (0x1e140, 0x1e149), (0x1e2f0, 0x1e2f9), (0x1e950, 0x1e959),
  (0x1fbf0, 0x1fbf9)]

/-- Code-point ranges on which Python `str.isdigit` is true (CPython
3.11 / Unicode 14 data): the decimal digits above plus digit-property
characters such as superscripts, which `int()` cannot parse. -/
def isdigitRanges : List (Nat × Nat) := [
  (0x30, 0x39), (0xb2, 0xb3), (0xb9, 0xb9), (0x660, 0x669), (0x6f0, 0x6f9),
  (0x7c0, 0x7c9), (0x966, 0x96f), (0x9e6, 0x9ef), (0xa66, 0xa6f), (0xae6, 0xaef),
  (0xb66, 0xb6f), (0xbe6, 0xbef), (0xc66, 0xc6f), (0xce6, 0xcef), (0xd66, 0xd6f),
  (0xde6, 0xdef), (0xe50, 0xe59), (0xed0, 0xed9), (0xf20, 0xf29), (0x1040, 0x1049),
  (0x1090, 0x1099), (0x1369, 0x1371), (0x17e0, 0x17e9), (0x1810, 0x1819), (0x1946, 0x194f),
  (0x19d0, 0x19da), (0x1a80, 0x1a89), (0x1a90, 0x1a99), (0x1b50, 0x1b59), (0x1bb0, 0x1bb9),
  (0x1c40, 0x1c49), (0x1c50, 0x1c59), (0x2070, 0x2070), (0x2074, 0x2079), (0x2080, 0x2089),
  (0x2460, 0x2468), (0x2474, 0x247c), (0x2488, 0x2490), (0x24ea, 0x24ea), (0x24f5, 0x24fd),
  (0x24ff, 0x24ff), (0x2776, 0x277e), (0x2780, 0x2788), (0x278a, 0x2792), (0xa620, 0xa629),
  (0xa8d0, 0xa8d9), (0xa900, 0xa909), (0xa9d0, 0xa9d9), (0xa9f0, 0xa9f9), (0xaa50, 0xaa59),
  (0xabf0, 0xabf9), (0xff10, 0xff19), (0x104a0, 0x104a9), (0x10a40, 0x10a43), (0x10d30, 0x10d39),
  (0x10e60, 0x10e68), (0x11052, 0x1105a), (0x11066, 0x1106f), (0x110f0, 0x110f9), (0x11136, 0x1113f),
  (0x111d0, 0x111d9), (0x112f0, 0x112f9), (0x11450, 0x11459), (0x114d0, 0x114d9), (0x11650, 0x11659),
  (0x116c0, 0x116c9), (0x11730, 0x11739), (0x118e0, 0x118e9), (0x11950, 0x11959), (0x11c50, 0x11c59),
  (0x11d50, 0x11d59), (0x11da0, 0x11da9), (0x16a60, 0x16a69), (0x16ac0, 0x16ac9), (0x16b50, 0x16b59),
  (0x1d7ce, 0x1d7ff), (0x1e140, 0x1e149), (0x1e2f0, 0x1e2f9), (0x1e950, 0x1e959), (0x1f100, 0x1f10a),
  (0x1fbf0, 0x1fbf9)]

/-- Code points stripped by Python `str.strip()` (the `str.isspace`
set, CPython 3.11). -/
def stripSpaceCodes : List Nat := [
  0x9, 0xa, 0xb, 0xc, 0xd, 0x1c, 0x1d, 0x1e, 0x1f, 0x20,
  0x85, 0xa0, 0x1680, 0x2000, 0x2001, 0x2002, 0x2003, 0x2004, 0x2005, 0x2006,
  0x2007, 0x2008, 0x2009, 0x200a, 0x2028, 0x2029, 0x202f, 0x205f, 0x3000]

/-- Code points skipped as surrounding whitespace by Python `int()`:
the `str.isspace` set minus U+001C..U+001F, which `int` does not strip
(verified against CPython 3.11). -/
def intSpaceCodes : List Nat := [
  0x9, 0xa, 0xb, 0xc, 0xd, 0x20, 0x85, 0xa0, 0x1680, 0x2000,
  0x2001, 0x2002, 0x2003, 0x2004, 0x2005, 0x2006, 0x2007, 0x2008, 0x2009, 0x200a,
  0x2028, 0x2029, 0x202f, 0x205f, 0x3000]

/-- Decimal value of a character as used by Python `int()` parsing:
`some v` when the character is a Unicode decimal digit of value `v`,
`none` otherwise. -/
def pyDecimalVal (c : Char) : Option Nat :=
  decimalRuns.findSome? (fun r =>
    if r.1 ≤ c.toNat && c.toNat ≤ r.2 then some (c.toNat - r.1) else none)

/-- Python `str.isdigit` on a single character. -/
def pyIsDigitChar (c : Char) : Bool :=
  isdigitRanges.any (fun r => r.1 ≤ c.toNat && c.toNat ≤ r.2)

/-- Python `str.isdigit`: non-empty and every character has the Unicode
digit property. -/
def isdigitStr (s : String) : Bool := s.length != 0 && s.toList.all pyIsDigitChar

/-- Membership in the `str.strip()` whitespace set. -/
def isStripSpace (c : Char) : Bool := stripSpaceCodes.contains c.toNat

/-- Membership in the whitespace set skipped by `int()`. -/
def isIntSpace (c : Char) : Bool := intSpaceCodes.contains c.toNat

/-- Python `str.strip()`: surrounding whitespace removed. -/
def pyStrip (s : String) : String :=
  ⟨((s.toList.dropWhile isStripSpace).reverse.dropWhile isStripSpace).reverse⟩

/-- Digit-run parser of Python `int()` after the first digit: single
underscores are allowed only between digits. -/
def pyDigitsAux (acc : Nat) : List Char → Option Nat
  | [] => some acc
  | '_' :: c :: rest =>
    match pyDecimalVal c with
    | some v => pyDigitsAux (acc * 10 + v) rest
    | none => none
  | '_' :: [] => none
  | c :: rest =>
    match pyDecimalVal c with
    | some v => pyDigitsAux (acc * 10 + v) rest
    | none => none

/-- Digit run of Python `int()`: a non-empty sequence of Unicode decimal
digits with optional single underscores between them. -/
def pyDigits : List Char → Option Nat
  | [] => none
  | c :: rest =>
    match pyDecimalVal c with
    | some v => pyDigitsAux v rest
    | none => none

/-- Python `int(s)` for a string argument: surrounding `int()`-whitespace
is skipped, one optional ASCII sign is allowed, then a non-empty run of
Unicode decimal digits with underscore grouping; any other shape raises
`ValueError`, modelled as `none`. -/
def pyInt (s : String) : Option Int :=
  let cs := ((s.toList.dropWhile isIntSpace).reverse.dropWhile isIntSpace).reverse
  match cs with
  | [] => none
  | '-' :: rest => (pyDigits rest).map (fun v => -(v : Int))
  | '+' :: rest => (pyDigits rest).map (fun v => ((v : Nat) : Int))
  | other => (pyDigits other).map (fun v => ((v : Nat) : Int))

/-- The two exception kinds `get_page_count` can propagate: the explicit
`ScraperError` of step 4, and the `ValueError` raised by
`int(pager.get("data-pagecount"))` on a non-integer attribute value. -/
inductive PageCountError where
  | scraperError (msg : String)
  | valueError (badValue : String)
deriving Repr, DecidableEq

/-- The comprehension
`[int(link.text) for link in page_links if link.text.isdigit()]`:
labels failing `isdigit` are filtered out; the first `isdigit`-passing
label whose characters are not all decimal digits (e.g. `"\u00b2"`) makes
`int` raise `ValueError`, modelled as the error carrying that label. -/
def linkNumbers : List String → Except String (List Nat)
  | [] => .ok []
  | t :: rest =>
    if isdigitStr t then
      match pyInt t with
      | some n => (linkNumbers rest).map (fun ns => n.toNat :: ns)
      | none => .error t
    else linkNumbers rest

/-- Maximum of a list of naturals (Python `max` on a non-empty list; the
`[]` case is never used by the code, which guards with non-emptiness). -/
def maxNat : List Nat → Nat
  | [] => 0
  | x :: xs => Nat.max x (maxNat xs)

/-- Step 2 of `get_page_count`: the pagination container exists but
carries no usable `data-pagecount`, so take the maximum numeric link
label, or 1 if none is numeric; a `ValueError` from `int()` on an
`isdigit`-passing label propagates (re-raised by the `except`). -/
def pagerFallback (pagination : Pager) : Except PageCountError Int :=
  match linkNumbers pagination.linkTexts with
  | .error bad => .error (.valueError bad)
  | .ok pn => if pn.length != 0 then .ok ((maxNat pn : Nat) : Int) else .ok 1

/-- `get_page_count(soup)`: step 1 returns `data-pagecount + 1` when the
attribute is present and truthy (raising `ValueError` if it does not
parse as an integer); step 2 returns the maximum numeric link label (or
1); step 3 returns 1 when an entry list with at least one `<li>` exists;
step 4 raises `ScraperError`. -/
def get_page_count (soup : Doc) : Except PageCountError Int :=
  match soup.pager with
  | some pagerTag =>
    match pagerTag.dataPagecount with
    | some v =>
      if strTruthy v then
        match pyInt v with
        | some n => .ok (n + 1)
        | none => .error (.valueError v)
      else
        pagerFallback pagerTag
    | none => pagerFallback pagerTag
  | none =>
    match soup.entryItemList with
    | some entries =>
      if entries.length != 0 then .ok 1
      else .error (.scraperError "No entries or pagination found")
    | none => .error (.scraperError "No entries or pagination found")

/-- The per-entry body of the loop in `scrape_page`: every field read has
a total fallback (`.get` with default, `if ... else` default), so the
translation always succeeds; the `Except` codomain mirrors the
`try/except` wrapper around the body. -/
def extract_entry (entry : EntryNode) : Except String Record :=
  let username := entry.dataAuthor.getD "Unknown"
  let content :=
    match entry.contentDiv with
    | some t => pyStrip t
    | none => "No content"
  let date :=
    match entry.dateElement with
    | some t => pyStrip t
    | none => "No date"
  let favoriteCount := entry.dataFavoriteCount.getD "0"
  .ok ⟨username, content, date, favoriteCount⟩

/-- The entry loop of `scrape_page`: a failing entry is skipped
(`except ... continue`) and the loop proceeds with the remaining
entries. -/
def processEntries : List EntryNode → List Record
  | [] => []
  | e :: rest =>
    match extract_entry e with
    | .ok r => r :: processEntries rest
    | .error _ => processEntries rest

/-- The extraction part of `scrape_page`, given a fetched document:
return `[]` when the `entry-item-list` container is absent, otherwise run
the entry loop over its `<li>` children. -/
def extractPage (soup : Doc) : List Record :=
  match soup.entryItemList with
  | none => []
  | some entries => processEntries entries

/-- Outcome of `get_soup`: a parsed document was returned, the final
attempt's exception was re-raised (`FetchError`), or the loop fell
through to the trailing `return None`. -/
inductive FetchResult where
  | soup (d : Doc)
  | fetchError
  | retNone
deriving Repr, DecidableEq

/-- Observable trace of one `get_soup` call: how many fetch attempts were
made, which exponential-backoff sleeps (`2 ** attempt` seconds) were
performed, and the outcome. -/
structure SoupRun where
  attempts : Nat
  backoffs : List Nat
  result : FetchResult
deriving Repr, DecidableEq

/-- The `for attempt in range(max_retries)` loop of `get_soup`.
`outcome i = some d` means attempt `i` succeeds with document `d`;
`outcome i = none` means attempt `i` raises.  `remaining` is the number
of loop iterations left and `attempt` the current 0-based index; on a
non-final failure the loop sleeps `2 ^ attempt` and retries, on the final
failure it re-raises, and an exhausted range falls to `return None`. -/
def getSoupLoop (outcome : Nat → Option Doc) : Nat → Nat → SoupRun
  | 0, _ => ⟨0, [], .retNone⟩
  | Nat.succ remaining, attempt =>
    match outcome attempt with
    | some d => ⟨1, [], .soup d⟩
    | none =>
      if remaining = 0 then ⟨1, [], .fetchError⟩
      else
        let rest := getSoupLoop outcome remaining (attempt + 1)
        ⟨rest.attempts + 1, 2 ^ attempt :: rest.backoffs, rest.result⟩

/-- `get_soup(url, scraper, max_retries)`, with the fetch behaviour of the
URL abstracted as the per-attempt `outcome` function. -/
def get_soup (outcome : Nat → Option Doc) (max_retries : Nat) : SoupRun :=
  getSoupLoop outcome max_retries 0

/-- `scrape_page(page_link, scraper)`: fetch with the default
`max_retries = 3`, then extract; any exception from the fetch is caught
by the outer handler and yields `[]`.  A `None` document would make
`soup.find` raise `AttributeError`, also caught by the outer handler,
hence also `[]`. -/
def scrape_page (outcome : Nat → Option Doc) : List Record :=
  match (get_soup outcome 3).result with
  | .soup d => extractPage d
  | .fetchError => []
  | .retNone => []

/-- `sys.argv[1].split("?")[0]`: everything before the first `?`. -/
def stripQuery (url : String) : String :=
  ⟨url.toList.takeWhile (fun c => c != '?')⟩

/-- `[f"{mainLink}?p={i}" for i in range(1, pageCount + 1)]`. -/
def pageLinks (mainLink : String) (pageCount : Nat) : List String :=
  (List.range pageCount).map (fun i => mainLink ++ "?p=" ++ toString (i + 1))

/-- The collection loop of `main`: `all_entries.extend(data)` over the
per-page results in completion order. -/
def runCollect (pageResults : List (List Record)) : List Record :=
  pageResults.foldl (fun acc page => acc ++ page) []

/-- The run-level exit signal of `main` after all pages complete:
`sys.exit(1)` when no entries were collected, normal termination (0)
otherwise. -/
def runExitCode (pageResults : List (List Record)) : Nat :=
  if runCollect pageResults = [] then 1 else 0

/-! ### Helper lemmas -/

lemma processEntries_eq_filterMap (es : List EntryNode) :
    processEntries es = es.filterMap (fun e => (extract_entry e).toOption) := by
  induction es with
  | nil => rfl
  | cons e rest ih =>
    cases h : extract_entry e with
    | ok r => simp [processEntries, h, List.filterMap_cons, Except.toOption, ih]
    | error msg => simp [processEntries, h, List.filterMap_cons, Except.toOption, ih]

lemma le_maxNat (l : List Nat) : ∀ x ∈ l, x ≤ maxNat l := by
  induction l with
  | nil => intro x hx; cases hx
  | cons y ys ih =>
    intro x hx
    rcases List.mem_cons.mp hx with h | h
    · subst h; exact Nat.le_max_left _ _
    · exact Nat.le_trans (ih x h) (Nat.le_max_right y (maxNat ys))

lemma maxNat_mem : ∀ l : List Nat, l ≠ [] → maxNat l ∈ l
  | [], h => absurd rfl h
  | [x], _ => by simp [maxNat]
  | x :: y :: ys, _ => by
    rcases Nat.le_total (maxNat (y :: ys)) x with hle | hle
    · have hx : maxNat (x :: y :: ys) = x := Nat.max_eq_left hle
      rw [hx]; exact List.mem_cons_self _ _
    · have hx : maxNat (x :: y :: ys) = maxNat (y :: ys) := Nat.max_eq_right hle
      rw [hx]; exact List.mem_cons_of_mem _ (maxNat_mem (y :: ys) (by simp))

lemma getSoupLoop_attempts_pos (outcome : Nat → Option Doc) (k i : Nat) (hk : 1 ≤ k) :
    1 ≤ (getSoupLoop outcome k i).attempts := by
  cases k with
  | zero => omega
  | succ m =>
    cases h : outcome i with
    | some d => simp [getSoupLoop, h]
    | none =>
      by_cases hm : m = 0
      · simp [getSoupLoop, h, hm]
      · simp [getSoupLoop, h, hm]

lemma getSoupLoop_attempts_le (outcome : Nat → Option Doc) :
    ∀ k i, (getSoupLoop outcome k i).attempts ≤ k := by
  intro k
  induction k with
  | zero => intro i; simp [getSoupLoop]
  | succ m ih =>
    intro i
    cases h : outcome i with
    | some d => simp [getSoupLoop, h]
    | none =>
      by_cases hm : m = 0
      · simp [getSoupLoop, h, hm]
      · have hle := ih (i + 1)
        simp [getSoupLoop, h, hm]
        omega

lemma getSoupLoop_backoffs (outcome : Nat → Option Doc) :
    ∀ k i, (getSoupLoop outcome k i).backoffs =
      (List.range ((getSoupLoop outcome k i).attempts - 1)).map (fun j => 2 ^ (i + j)) := by
  intro k
  induction k with
  | zero => intro i; simp [getSoupLoop]
  | succ m ih =>
    intro i
    cases h : outcome i with
    | some d => simp [getSoupLoop, h]
    | none =>
      by_cases hm : m = 0
      · simp [getSoupLoop, h, hm]
      · have hpos : 1 ≤ (getSoupLoop outcome m (i + 1)).attempts :=
          getSoupLoop_attempts_pos outcome m (i + 1) (by omega)
        have hb := ih (i + 1)
        obtain ⟨a, ha⟩ : ∃ a, (getSoupLoop outcome m (i + 1)).attempts = a + 1 :=
          ⟨_, (Nat.succ_pred_eq_of_pos hpos).symm⟩
        have key : getSoupLoop outcome (m + 1) i =
            ⟨(getSoupLoop outcome m (i + 1)).attempts + 1,
              2 ^ i :: (getSoupLoop outcome m (i + 1)).backoffs,
              (getSoupLoop outcome m (i + 1)).result⟩ := by
          simp [getSoupLoop, h, hm]
        rw [key]
        dsimp only
        rw [hb, ha]
        simp only [Nat.add_sub_cancel, List.range_succ_eq_map, List.map_cons, List.map_map,
          Nat.add_zero]
        congr 1
        refine List.map_congr_left ?_
        intro j hj
        simp only [Function.comp]
        congr 1
        omega

lemma getSoupLoop_allFail (outcome : Nat → Option Doc) :
    ∀ k i, 1 ≤ k → (∀ j, j < k → outcome (i + j) = none) →
      (getSoupLoop outcome k i).result = .fetchError ∧
      (getSoupLoop outcome k i).attempts = k := by
  intro k
  induction k with
  | zero => intro i h1 _; omega
  | succ m ih =>
    intro i _ hall
    have h0 : outcome i = none := by simpa using hall 0 (by omega)
    by_cases hm : m = 0
    · subst hm; simp [getSoupLoop, h0]
    · have ihm := ih (i + 1) (by omega) (fun j hj => by
        have e : i + 1 + j = i + (j + 1) := by omega
        rw [e]; exact hall (j + 1) (by omega))
      simp [getSoupLoop, h0, hm]
      exact ⟨ihm.1, by omega⟩

lemma getSoupLoop_ne_retNone (outcome : Nat → Option Doc) :
    ∀ k i, 1 ≤ k → (getSoupLoop outcome k i).result ≠ .retNone := by
  intro k
  induction k with
  | zero => intro i h; omega
  | succ m ih =>
    intro i _
    cases h : outcome i with
    | some d => simp [getSoupLoop, h]
    | none =>
      by_cases hm : m = 0
      · simp [getSoupLoop, h, hm]
      · have hne := ih (i + 1) (by omega)
        simp [getSoupLoop, h, hm]
        exact hne

lemma runCollect_eq_flatten (rs : List (List Record)) : runCollect rs = rs.flatten := by
  suffices h : ∀ acc, rs.foldl (fun a p => a ++ p) acc = acc ++ rs.flatten by
    simpa using h []
  induction rs with
  | nil => intro acc; simp
  | cons p ps ih => intro acc; simp [ih, List.append_assoc]

lemma pagerFallback_error (pagination : Pager) (bad : String)
    (h : linkNumbers pagination.linkTexts = .error bad) :
    pagerFallback pagination = .error (.valueError bad) := by
  simp [pagerFallback, h]

lemma pagerFallback_ok (pagination : Pager) (pn : List Nat)
    (h : linkNumbers pagination.linkTexts = .ok pn) :
    ∃ n, pagerFallback pagination = .ok n := by
  unfold pagerFallback
  rw [h]
  by_cases hl : pn.length != 0 <;> simp [hl]

lemma takeWhile_notQ (l : List Char) (h : ∀ c ∈ l, c ≠ '?') :
    l.takeWhile (fun c => c != '?') = l := by
  induction l with
  | nil => rfl
  | cons c cs ih =>
    have hc : (c != '?') = true := by simpa using h c (List.mem_cons_self c cs)
    simp [List.takeWhile_cons, hc, ih (fun x hx => h x (List.mem_cons_of_mem _ hx))]

lemma takeWhile_stopQ (l r : List Char) (h : ∀ c ∈ l, c ≠ '?') :
    (l ++ '?' :: r).takeWhile (fun c => c != '?') = l := by
  induction l with
  | nil => simp [List.takeWhile_cons]
  | cons c cs ih =>
    have hc : (c != '?') = true := by simpa using h c (List.mem_cons_self c cs)
    simp [List.takeWhile_cons, hc, ih (fun x hx => h x (List.mem_cons_of_mem _ hx))]

lemma stripQuery_eq_self (s : String) (h : ∀ c ∈ s.toList, c ≠ '?') : stripQuery s = s := by
  unfold stripQuery
  rw [takeWhile_notQ s.toList h]
  rfl

lemma stripQuery_append (base q : String) (h : ∀ c ∈ base.toList, c ≠ '?') :
    stripQuery (base ++ "?" ++ q) = base := by
  unfold stripQuery
  have hdata : (base ++ "?" ++ q).toList = base.toList ++ '?' :: q.toList := by
    show (base.data ++ ('?' :: List.nil)) ++ q.data = base.data ++ '?' :: q.data
    simp
  rw [hdata, takeWhile_stopQ _ _ h]
  rfl

/-! ### Claim theorems -/

/-- Claim C1: for every document whose pagination container carries an
explicit `data-pagecount` attribute with integer value `n`,
`get_page_count` returns `n + 1`. -/
theorem C1_explicit_pagecount (soup : Doc) (pagerTag : Pager) (v : String) (n : Int)
    (hp : soup.pager = some pagerTag) (hv : pagerTag.dataPagecount = some v)
    (hn : pyInt v = some n) :
    get_page_count soup = .ok (n + 1) := by
  have hne : v ≠ "" := by
    intro he
    rw [he] at hn
    have h0 : pyInt "" = none := by decide
    rw [h0] at hn
    exact Option.noConfusion hn
  have ht : strTruthy v = true := by simp [strTruthy, hne]
  simp [get_page_count, hp, hv, ht, hn]

/-- Witness for C1 at a concrete document with `data-pagecount = "41"`. -/
theorem C1_explicit_pagecount_witness :
    get_page_count ⟨some ⟨some "41", []⟩, none⟩ = .ok (41 + 1) :=
  C1_explicit_pagecount ⟨some ⟨some "41", []⟩, none⟩ ⟨some "41", []⟩ "41" 41 rfl rfl (by decide)

/-- Counterexample to C7 as stated: the link label `"²"` passes Python
`str.isdigit` but `int("²")` raises `ValueError`, so on a document whose
pagination container (without a page-count attribute) holds that link,
`get_page_count` hard-fails instead of returning a maximum or 1. -/
theorem C7_counterexample :
    get_page_count (Doc.mk (some (Pager.mk none ["²"])) none) =
      .error (.valueError "²") ∧
    get_page_count (Doc.mk (some (Pager.mk none ["²"])) none) ≠ .ok 1 := by decide

/-- Amended C7: for every document with a pagination container but no
`data-pagecount` attribute, when every `isdigit`-passing link label also
parses with `int()`, `get_page_count` returns the maximum of those
parsed labels, and 1 when no label passes `isdigit`; when some
`isdigit`-passing label does not parse as an integer, the `ValueError`
raised by `int()` propagates instead of a page count. -/
theorem C7_numeric_link_fallback (soup : Doc) (pagerTag : Pager)
    (hp : soup.pager = some pagerTag) (hv : pagerTag.dataPagecount = none) :
    (∀ bad, linkNumbers pagerTag.linkTexts = .error bad →
      get_page_count soup = .error (.valueError bad)) ∧
    (linkNumbers pagerTag.linkTexts = .ok [] → get_page_count soup = .ok 1) ∧
    (∀ pn, linkNumbers pagerTag.linkTexts = .ok pn → pn ≠ [] →
      get_page_count soup = .ok ((maxNat pn : Nat) : Int) ∧
      maxNat pn ∈ pn ∧ ∀ m ∈ pn, m ≤ maxNat pn) := by
  refine ⟨?_, ?_, ?_⟩
  · intro bad hl
    have hpf := pagerFallback_error pagerTag bad hl
    simp [get_page_count, hp, hv, hpf]
  · intro hl
    have hpf : pagerFallback pagerTag = .ok 1 := by simp [pagerFallback, hl]
    simp [get_page_count, hp, hv, hpf]
  · intro pn hl hne
    refine ⟨?_, maxNat_mem _ hne, le_maxNat _⟩
    have hlen : pn.length ≠ 0 := by simpa [List.length_eq_zero] using hne
    have hpf : pagerFallback pagerTag = .ok ((maxNat pn : Nat) : Int) := by
      simp [pagerFallback, hl, hlen]
    simp [get_page_count, hp, hv, hpf]

/-- Witness for amended C7 at a concrete document with links `"3"`,
`"prev"`, `"7"` (all `isdigit`-passing labels parse, maximum 7). -/
theorem C7_numeric_link_fallback_witness :
    get_page_count ⟨some ⟨none, ["3", "prev", "7"]⟩, none⟩ = .ok 7 := by
  have h := ((C7_numeric_link_fallback ⟨some ⟨none, ["3", "prev", "7"]⟩, none⟩
    ⟨none, ["3", "prev", "7"]⟩ rfl rfl).2.2 [3, 7] (by decide) (by decide)).1
  rw [h]
  decide

/-- Claim C8: for every document with no pagination container,
`get_page_count` returns 1 when an entry list with at least one entry
exists, and fails with `ScraperError` when neither pagination nor entries
are found. -/
theorem C8_no_pager_paths (soup : Doc) (hp : soup.pager = none) :
    (∀ entries, soup.entryItemList = some entries → entries ≠ [] →
      get_page_count soup = .ok 1) ∧
    ((soup.entryItemList = none ∨ soup.entryItemList = some []) →
      get_page_count soup = .error (.scraperError "No entries or pagination found")) := by
  constructor
  · intro entries he hne
    have hlen : entries.length ≠ 0 := by simpa [List.length_eq_zero] using hne
    simp [get_page_count, hp, he, hlen]
  · rintro (he | he) <;> simp [get_page_count, hp, he]

/-- Witness for C8: a single-entry document yields 1, an empty document
yields `ScraperError`. -/
theorem C8_no_pager_paths_witness :
    get_page_count ⟨none, some [⟨none, none, none, none⟩]⟩ = .ok 1 ∧
    get_page_count ⟨none, none⟩ =
      .error (.scraperError "No entries or pagination found") :=
  ⟨(C8_no_pager_paths ⟨none, some [⟨none, none, none, none⟩]⟩ rfl).1
      [⟨none, none, none, none⟩] rfl (by decide),
   (C8_no_pager_paths ⟨none, none⟩ rfl).2 (Or.inl rfl)⟩

/-- Counterexample to C9 as stated: the document whose pagination
container carries `data-pagecount = "x"` has a pagination container, yet
`get_page_count` fails on it (with the `ValueError` raised by `int("x")`,
not with `ScraperError`), so step 4 is not the only hard failure path. -/
theorem C9_counterexample :
    (Doc.mk (some (Pager.mk (some "x") [])) none).pager ≠ none ∧
    get_page_count (Doc.mk (some (Pager.mk (some "x") [])) none) =
      .error (.valueError "x") := by decide

/-- Amended C9: `get_page_count` either returns an integer or fails; it
fails with `ScraperError` exactly on documents with neither a pagination
container nor a non-empty entry list; it fails with the `ValueError` of
`int()` exactly when either the pagination container carries a non-empty
`data-pagecount` attribute that `int()` cannot parse, or the pagination
container carries no (or an empty) `data-pagecount` attribute and some
link label passes `isdigit` but `int()` cannot parse it; there is no
other failure path. -/
theorem C9_error_characterization (soup : Doc) :
    ((∃ msg, get_page_count soup = .error (.scraperError msg)) ↔
      soup.pager = none ∧
        (soup.entryItemList = none ∨ soup.entryItemList = some [])) ∧
    ((∃ v, get_page_count soup = .error (.valueError v)) ↔
      ∃ pagerTag, soup.pager = some pagerTag ∧
        ((∃ w, pagerTag.dataPagecount = some w ∧ w ≠ "" ∧ pyInt w = none) ∨
         ((pagerTag.dataPagecount = none ∨ pagerTag.dataPagecount = some "") ∧
          ∃ bad, linkNumbers pagerTag.linkTexts = .error bad))) ∧
    ((∃ n, get_page_count soup = .ok n) ∨ (∃ e, get_page_count soup = .error e)) := by
  obtain ⟨p, el⟩ := soup
  refine ⟨?_, ?_, ?_⟩
  · cases p with
    | some pg =>
      obtain ⟨dp, links⟩ := pg
      cases dp with
      | some v =>
        by_cases hv : strTruthy v = true
        · cases hpy : pyInt v with
          | some n => simp [get_page_count, hv, hpy]
          | none => simp [get_page_count, hv, hpy]
        · have hvemp : v = "" := by
            by_contra hc
            exact hv (by simp [strTruthy, hc])
          subst hvemp
          cases hl : linkNumbers links with
          | error bad =>
            have hpf := pagerFallback_error ⟨some "", links⟩ bad hl
            simp [get_page_count, strTruthy, hpf]
          | ok pn =>
            obtain ⟨n, hn⟩ := pagerFallback_ok ⟨some "", links⟩ pn hl
            simp [get_page_count, strTruthy, hn]
      | none =>
        cases hl : linkNumbers links with
        | error bad =>
          have hpf := pagerFallback_error ⟨none, links⟩ bad hl
          simp [get_page_count, hpf]
        | ok pn =>
          obtain ⟨n, hn⟩ := pagerFallback_ok ⟨none, links⟩ pn hl
          simp [get_page_count, hn]
    | none =>
      cases el with
      | some entries =>
        cases entries with
        | nil => simp [get_page_count]
        | cons e es => simp [get_page_count]
      | none => simp [get_page_count]
  · cases p with
    | some pg =>
      obtain ⟨dp, links⟩ := pg
      cases dp with
      | some v =>
        by_cases hv : strTruthy v = true
        · have hvne : v ≠ "" := by simpa [strTruthy] using hv
          cases hpy : pyInt v with
          | some n => simp [get_page_count, hv, hpy, hvne]
          | none =>
            simp only [get_page_count, hv, hpy, if_true]
            constructor
            · intro _; exact ⟨⟨some v, links⟩, rfl, Or.inl ⟨v, rfl, hvne, hpy⟩⟩
            · intro _; exact ⟨v, rfl⟩
        · have hvemp : v = "" := by
            by_contra hc
            exact hv (by simp [strTruthy, hc])
          subst hvemp
          cases hl : linkNumbers links with
          | error bad =>
            have hpf := pagerFallback_error ⟨some "", links⟩ bad hl
            have hres : get_page_count (Doc.mk (some (Pager.mk (some "") links)) el) =
                .error (.valueError bad) := by
              simp [get_page_count, strTruthy, hpf]
            rw [hres]
            constructor
            · intro _; exact ⟨⟨some "", links⟩, rfl, Or.inr ⟨Or.inr rfl, bad, hl⟩⟩
            · intro _; exact ⟨bad, rfl⟩
          | ok pn =>
            obtain ⟨n, hn⟩ := pagerFallback_ok ⟨some "", links⟩ pn hl
            simp [get_page_count, strTruthy, hn, hl]
      | none =>
        cases hl : linkNumbers links with
        | error bad =>
          have hpf := pagerFallback_error ⟨none, links⟩ bad hl
          have hres : get_page_count (Doc.mk (some (Pager.mk none links)) el) =
              .error (.valueError bad) := by
            simp [get_page_count, hpf]
          rw [hres]
          constructor
          · intro _; exact ⟨⟨none, links⟩, rfl, Or.inr ⟨Or.inl rfl, bad, hl⟩⟩
          · intro _; exact ⟨bad, rfl⟩
        | ok pn =>
          obtain ⟨n, hn⟩ := pagerFallback_ok ⟨none, links⟩ pn hl
          simp [get_page_count, hn, hl]
    | none =>
      cases el with
      | some entries =>
        cases entries with
        | nil => simp [get_page_count]
        | cons e es => simp [get_page_count]
      | none => simp [get_page_count]
  · cases hres : get_page_count ⟨p, el⟩ with
    | ok n => exact Or.inl ⟨n, rfl⟩
    | error e => exact Or.inr ⟨e, rfl⟩

/-- Claim C4: each field of an extracted record gets its default
independently of the other fields — absent `data-author` yields
`"Unknown"`, absent content sub-element yields `"No content"`, absent
dated permalink yields `"No date"`, absent `data-favorite-count` yields
`"0"` — and present content and date texts are stripped of surrounding
whitespace. -/
theorem C4_field_defaults (entry : EntryNode) (r : Record)
    (h : extract_entry entry = .ok r) :
    (entry.dataAuthor = none → r.username = "Unknown") ∧
    (∀ a, entry.dataAuthor = some a → r.username = a) ∧
    (entry.contentDiv = none → r.content = "No content") ∧
    (∀ t, entry.contentDiv = some t → r.content = pyStrip t) ∧
    (entry.dateElement = none → r.date = "No date") ∧
    (∀ t, entry.dateElement = some t → r.date = pyStrip t) ∧
    (entry.dataFavoriteCount = none → r.favoriteCount = "0") ∧
    (∀ f, entry.dataFavoriteCount = some f → r.favoriteCount = f) := by
  obtain ⟨a, c, d, f⟩ := entry
  obtain ⟨ru, rc, rd, rf⟩ := r
  cases a <;> cases c <;> cases d <;> cases f <;> simp_all [extract_entry]

/-- Witness for C4 at the entry node with every field absent. -/
theorem C4_field_defaults_witness :
    (Record.mk "Unknown" "No content" "No date" "0").username = "Unknown" :=
  (C4_field_defaults ⟨none, none, none, none⟩
    ⟨"Unknown", "No content", "No date", "0"⟩ rfl).1 rfl

/-- Claim C5: page extraction is total — an absent `entry-item-list`
container yields `[]`, and otherwise the result is exactly the records of
the non-failing entries, in order (a failing entry is skipped and the
loop continues with the remaining entries). -/
theorem C5_tolerant_page_extraction (soup : Doc) :
    (soup.entryItemList = none → extractPage soup = []) ∧
    (∀ entries, soup.entryItemList = some entries →
      extractPage soup = entries.filterMap (fun e => (extract_entry e).toOption)) := by
  constructor
  · intro h; simp [extractPage, h]
  · intro entries h; simp [extractPage, h, processEntries_eq_filterMap]

/-- Witness for C5 at a concrete one-entry document. -/
theorem C5_tolerant_page_extraction_witness :
    extractPage ⟨none, some [⟨some "a", none, none, none⟩]⟩ =
      [(⟨some "a", none, none, none⟩ : EntryNode)].filterMap
        (fun e => (extract_entry e).toOption) :=
  (C5_tolerant_page_extraction ⟨none, some [⟨some "a", none, none, none⟩]⟩).2
    [⟨some "a", none, none, none⟩] rfl

/-- Claim C2: for every URL behaviour and every `max_retries = n ≥ 1`,
`get_soup` makes at most `n` attempts; every attempt before the last one
made failed and was followed by a `2 ^ attempt`-second backoff sleep (so
the backoff trace is `[2^0, …, 2^(a-2)]` when `a` attempts were made);
and when all `n` attempts fail the final exception propagates
(`FetchError`). -/
theorem C2_retry_contract (outcome : Nat → Option Doc) (n : Nat) (hn : 1 ≤ n) :
    (get_soup outcome n).attempts ≤ n ∧
    (get_soup outcome n).backoffs =
      (List.range ((get_soup outcome n).attempts - 1)).map (fun j => 2 ^ j) ∧
    ((∀ j, j < n → outcome j = none) →
      (get_soup outcome n).result = .fetchError ∧ (get_soup outcome n).attempts = n) := by
  refine ⟨getSoupLoop_attempts_le outcome n 0, ?_, ?_⟩
  · have hb := getSoupLoop_backoffs outcome n 0
    simpa using hb
  · intro hall
    exact getSoupLoop_allFail outcome n 0 hn (fun j hj => by simpa using hall j hj)

/-- Witness for C2 at the always-failing fetch with `n = 3`. -/
theorem C2_retry_contract_witness :
    (get_soup (fun _ => none) 3).attempts ≤ 3 ∧
    (get_soup (fun _ => none) 3).result = FetchResult.fetchError :=
  ⟨(C2_retry_contract (fun _ => none) 3 (by decide)).1,
   ((C2_retry_contract (fun _ => none) 3 (by decide)).2.2 (fun _ _ => rfl)).1⟩

/-- Claim C10: for `max_retries = n ≥ 1`, `get_soup` either returns a
document or raises — the trailing `return None` is unreachable (in
particular for the default `max_retries = 3` used by `scrape_page`) —
while for `max_retries = 0` it does return `None`. -/
theorem C10_get_soup_never_none (outcome : Nat → Option Doc) (n : Nat) (hn : 1 ≤ n) :
    (get_soup outcome n).result ≠ .retNone ∧
    (get_soup outcome 3).result ≠ .retNone ∧
    (get_soup outcome 0).result = .retNone :=
  ⟨getSoupLoop_ne_retNone outcome n 0 hn,
   getSoupLoop_ne_retNone outcome 3 0 (by omega), rfl⟩

/-- Witness for C10 at the always-failing fetch with `n = 1`. -/
theorem C10_get_soup_never_none_witness :
    (get_soup (fun _ => none) 1).result ≠ FetchResult.retNone ∧
    (get_soup (fun _ => none) 0).result = FetchResult.retNone :=
  ⟨(C10_get_soup_never_none (fun _ => none) 1 (by decide)).1,
   (C10_get_soup_never_none (fun _ => none) 1 (by decide)).2.2⟩

/-- Claim C6: `main` strips the query string from the input URL (inputs
differing only in their query string are treated identically), and for a
resolved page count `P` it dispatches exactly `base?p=1 .. base?p=P`
(page 1 included as a refetch); a `data-pagecount` attribute of `"2"`
resolves to 3 and yields pages `?p=1`, `?p=2`, `?p=3`. -/
theorem C6_url_orchestration (base q : String) (hb : ∀ c ∈ base.toList, c ≠ '?') :
    stripQuery (base ++ "?" ++ q) = stripQuery base ∧
    stripQuery base = base ∧
    (∀ P, 1 ≤ P → base ++ "?p=1" ∈ pageLinks base P) ∧
    (∀ soup : Doc, ∀ pagerTag : Pager, soup.pager = some pagerTag →
      pagerTag.dataPagecount = some "2" → get_page_count soup = .ok 3) ∧
    pageLinks base 3 = [base ++ "?p=1", base ++ "?p=2", base ++ "?p=3"] := by
  have hself : stripQuery base = base := stripQuery_eq_self base hb
  refine ⟨?_, hself, ?_, ?_, ?_⟩
  · rw [stripQuery_append base q hb, hself]
  · intro P hP
    refine List.mem_map.mpr ⟨0, List.mem_range.mpr (by omega), ?_⟩
    rw [String.append_assoc]
    congr 1
  · intro soup pagerTag hsp hdp
    have h2 : pyInt "2" = some 2 := by decide
    have ht : strTruthy "2" = true := by decide
    have hok : get_page_count soup = .ok (2 + 1) := by
      simp [get_page_count, hsp, hdp, ht, h2]
    rw [hok]
    norm_num
  · have h3 : List.range 3 = [0, 1, 2] := by decide
    have e1 : "?p=" ++ toString (1 : Nat) = "?p=1" := by decide
    have e2 : "?p=" ++ toString (2 : Nat) = "?p=2" := by decide
    have e3 : "?p=" ++ toString (3 : Nat) = "?p=3" := by decide
    show (List.range 3).map (fun i => base ++ "?p=" ++ toString (i + 1)) = _
    rw [h3]
    simp only [List.map_cons, List.map_nil, String.append_assoc]
    norm_num [e1, e2, e3]

/-- Witness for C6 at the spec's concrete URL. -/
theorem C6_url_orchestration_witness :
    stripQuery ("https://example.com/thread" ++ "?" ++ "p=5") =
      stripQuery "https://example.com/thread" ∧
    stripQuery "https://example.com/thread" = "https://example.com/thread" :=
  ⟨(C6_url_orchestration "https://example.com/thread" "p=5" (by decide)).1,
   (C6_url_orchestration "https://example.com/thread" "p=5" (by decide)).2.1⟩

/-- Claim C3: after a successful probe, the run signals failure (exit
code 1) exactly when the merged collection is empty, succeeds otherwise,
and the total record count equals the sum of the per-page counts of the
submitted page results (completion order is a permutation of submission
order); a page whose fetch hard-fails contributes the empty list. -/
theorem C3_aggregation (completed submitted : List (List Record))
    (hperm : completed.Perm submitted) :
    (runExitCode completed = 1 ↔ runCollect completed = []) ∧
    (runExitCode completed = 0 ↔ runCollect completed ≠ []) ∧
    (runCollect completed).length = (submitted.map List.length).sum ∧
    (∀ outcome : Nat → Option Doc,
      (get_soup outcome 3).result = FetchResult.fetchError →
        scrape_page outcome = []) := by
  refine ⟨?_, ?_, ?_, ?_⟩
  · unfold runExitCode
    split <;> simp_all
  · unfold runExitCode
    split <;> simp_all
  · rw [runCollect_eq_flatten, List.length_flatten]
    exact (hperm.map List.length).sum_eq
  · intro outcome h
    simp [scrape_page, h]

/-- Witness for C3: two completed pages, one empty, permuted from the
submitted order. -/
theorem C3_aggregation_witness :
    (runCollect [[], [Record.mk "a" "b" "c" "0"]]).length =
      ([[Record.mk "a" "b" "c" "0"], []].map List.length).sum :=
  (C3_aggregation [[], [Record.mk "a" "b" "c" "0"]] [[Record.mk "a" "b" "c" "0"], []]
    (List.Perm.swap _ _ _)).2.2.1

end EksiScraper
